import Mathlib

/-!
Verification of the client-side session/authentication controller
(token lifecycle and 401 refresh-retry state machine).

The development shallowly embeds the TypeScript source:
  * `src/lib/session-restore.ts` — `decodeJWT`, `isTokenExpired`,
    `isTokenValid`, token storage, `fetchUserProfile`, `restoreUserSession`;
  * `src/lib/api/index.ts` — `isTokenExpiredError`, `isTokenInvalidError`,
    `attemptTokenRefresh`, `clearAuthAndLogout`, `handleSessionExpiredLogout`,
    `handle401Error`, `axiosBaseQuery`;
  * request-helpers — `getContentTypeHeaders`, `getAuthHeaders`,
    `buildRequestHeaders`;
  * `src/@redux/features/auth/auth.slice.ts` — the auth reducer.

JavaScript dynamic values reaching these functions (parsed JSON bodies,
decoded token claims) are modelled by the `Json` inductive; JavaScript
numbers are modelled by exact rationals plus NaN / ±Infinity (`JSNum`):
IEEE-754 rounding is not reproduced, which is irrelevant for the integer
timestamps and status codes these claims are about.  The HTTP transport is
an oracle (`Nat → AxOutcome`) consumed one outcome per `axiosClient` call,
and `localStorage` is a record of two optional strings.
-/

/-- Finite JavaScript/JSON numbers as exact scaled decimals:
value = `mant * 10 ^ exp`.  The representation is not canonical; every
observation (zero test, sign, order, equality, rendering) goes through the
value.  Exactly the numbers writable as JSON decimal literals arise, and
IEEE-754 rounding is not reproduced (irrelevant for the integer timestamps
and status codes these claims concern). -/
structure DecNum where
  mant : ℤ
  exp : ℤ
deriving DecidableEq

/-- Ten to a natural power, as an integer. -/
def intPow10 (k : ℕ) : ℤ := Int.ofNat (10 ^ k)

/-- The integer `i` as a scaled decimal. -/
def DecNum.ofInt (i : ℤ) : DecNum := ⟨i, 0⟩

/-- Negation of a scaled decimal. -/
def DecNum.neg (a : DecNum) : DecNum := ⟨-a.mant, a.exp⟩

/-- Multiplication of scaled decimals. -/
def DecNum.mul (a b : DecNum) : DecNum := ⟨a.mant * b.mant, a.exp + b.exp⟩

/-- Value equality of scaled decimals (cross-scaled integer comparison). -/
def DecNum.beq (a b : DecNum) : Bool :=
  let d := a.exp - b.exp
  if 0 ≤ d then a.mant * intPow10 d.toNat = b.mant
  else a.mant = b.mant * intPow10 (-d).toNat

/-- Value order of scaled decimals. -/
def DecNum.blt (a b : DecNum) : Bool :=
  let d := a.exp - b.exp
  if 0 ≤ d then a.mant * intPow10 d.toNat < b.mant
  else a.mant < b.mant * intPow10 (-d).toNat

/-- Result of `JSON.parse`: a JavaScript JSON value.  Object fields are kept
in source order; duplicate keys are resolved by `lookupLast` (later wins,
as in JavaScript object literals built by `JSON.parse`). -/
inductive Json where
  | null : Json
  | bool (b : Bool) : Json
  | num (q : DecNum) : Json
  | str (s : String) : Json
  | arr (xs : List Json) : Json
  | obj (fields : List (String × Json)) : Json

/-- Last binding of key `k` in an association list (JavaScript's
`JSON.parse` lets a later duplicate key overwrite an earlier one). -/
def lookupLast (fields : List (String × Json)) (k : String) : Option Json :=
  match fields with
  | [] => none
  | (k', v) :: rest =>
    match lookupLast rest k with
    | some r => some r
    | none => if k' = k then some v else none

/-- JavaScript `ToBoolean` on a JSON value. -/
def jsTruthy : Json → Bool
  | .null => false
  | .bool b => b
  | .num q => q.mant ≠ 0
  | .str s => s ≠ ""
  | .arr _ => true
  | .obj _ => true

/-- Property read `v.k` (or `v?.k`): field lookup when `v` is an object,
`undefined` (`none`) otherwise (property reads on primitives yield
`undefined` via boxing; the call sites only read properties of values that
are not `null`/`undefined`). -/
def jsGetField : Json → String → Option Json
  | .obj fields, k => lookupLast fields k
  | _, _ => none

/-- Truthiness of a possibly-`undefined` value (`undefined` is falsy). -/
def jsOptTruthy : Option Json → Bool
  | none => false
  | some v => jsTruthy v

/-- JavaScript strict equality `v === n` against an integer number
literal `n` (true only when `v` is a number of that value). -/
def jsEqNum (v : Option Json) (n : ℤ) : Bool :=
  match v with
  | some (.num q) => q.beq (DecNum.ofInt n)
  | _ => false

/-- JavaScript number: NaN, ±Infinity, or a finite value. -/
inductive JSNum where
  | nan : JSNum
  | posInf : JSNum
  | negInf : JSNum
  | fin (q : DecNum) : JSNum
deriving DecidableEq

/-- JavaScript `*` on numbers. -/
def JSNum.mul : JSNum → JSNum → JSNum
  | .nan, _ => .nan
  | _, .nan => .nan
  | .posInf, .posInf => .posInf
  | .posInf, .negInf => .negInf
  | .negInf, .posInf => .negInf
  | .negInf, .negInf => .posInf
  | .posInf, .fin q => if q.mant = 0 then .nan else if 0 < q.mant then .posInf else .negInf
  | .negInf, .fin q => if q.mant = 0 then .nan else if 0 < q.mant then .negInf else .posInf
  | .fin q, .posInf => if q.mant = 0 then .nan else if 0 < q.mant then .posInf else .negInf
  | .fin q, .negInf => if q.mant = 0 then .nan else if 0 < q.mant then .negInf else .posInf
  | .fin a, .fin b => .fin (a.mul b)

/-- JavaScript `<` on numbers: any comparison with NaN is false. -/
def JSNum.lt : JSNum → JSNum → Bool
  | .nan, _ => false
  | _, .nan => false
  | .negInf, .negInf => false
  | .negInf, _ => true
  | _, .negInf => false
  | .posInf, _ => false
  | .fin _, .posInf => true
  | .fin a, .fin b => a.blt b

/-- Characters removed/skipped by JavaScript `StringToNumber` trimming
(the common whitespace set). -/
def jsWhitespaceChar (c : Char) : Bool :=
  c = ' ' ∨ c = '\t' ∨ c = '\n' ∨ c = '\r' ∨ c = '\x0b' ∨ c = '\x0c' ∨
  c = Char.ofNat 0xa0 ∨ c = Char.ofNat 0x2028 ∨ c = Char.ofNat 0x2029 ∨
  c = Char.ofNat 0xfeff

/-- Value of a digit in the given base, if valid. -/
def digitVal (base : ℕ) (c : Char) : Option ℕ :=
  let v :=
    if '0' ≤ c ∧ c ≤ '9' then some (c.toNat - 48)
    else if 'a' ≤ c ∧ c ≤ 'z' then some (c.toNat - 97 + 10)
    else if 'A' ≤ c ∧ c ≤ 'Z' then some (c.toNat - 65 + 10)
    else none
  match v with
  | some d => if d < base then some d else none
  | none => none

/-- Interpret a nonempty digit string in the given base. -/
def digitsToNat (base : ℕ) (cs : List Char) : Option ℕ :=
  match cs with
  | [] => none
  | _ =>
    cs.foldl (fun acc c =>
      match acc, digitVal base c with
      | some a, some d => some (a * base + d)
      | _, _ => none) (some 0)

/-- Optional exponent part `([eE][+-]?digits)?` of a string numeric
literal; `some e` when the remainder is exactly a well-formed (possibly
empty) exponent, `none` otherwise. -/
def parseExpPart (cs : List Char) : Option ℤ :=
  match cs with
  | [] => some 0
  | e :: rest =>
    if e = 'e' ∨ e = 'E' then
      match rest with
      | '+' :: ds => (digitsToNat 10 ds).map Int.ofNat
      | '-' :: ds => (digitsToNat 10 ds).map (fun n => -(n : ℤ))
      | ds => (digitsToNat 10 ds).map Int.ofNat
    else none

/-- JavaScript `StrUnsignedDecimalLiteral` (without `Infinity`):
`digits [. digits?] exp?` or `. digits exp?`; at least one digit overall. -/
def parseUnsignedDecimal (cs : List Char) : Option DecNum :=
  let ip := cs.takeWhile (fun c => c.isDigit)
  let rest := cs.dropWhile (fun c => c.isDigit)
  match rest with
  | '.' :: rest2 =>
    let fp := rest2.takeWhile (fun c => c.isDigit)
    let rest3 := rest2.dropWhile (fun c => c.isDigit)
    if ip.isEmpty ∧ fp.isEmpty then none
    else
      match digitsToNat 10 (ip ++ fp), parseExpPart rest3 with
      | some m, some e => some ⟨(m : ℤ), e - fp.length⟩
      | _, _ => none
  | _ =>
    if ip.isEmpty then none
    else
      match digitsToNat 10 ip, parseExpPart rest with
      | some m, some e => some ⟨(m : ℤ), e⟩
      | _, _ => none

/-- JavaScript `ToNumber` on a string (`Number(s)` / implicit coercion):
trim, empty → 0, optional sign + (`Infinity` | decimal literal), or an
unsigned non-decimal (`0x`/`0o`/`0b`) literal; anything else → NaN. -/
def strToNumber (s : String) : JSNum :=
  let cs := (s.toList.dropWhile jsWhitespaceChar).reverse.dropWhile jsWhitespaceChar |>.reverse
  match cs with
  | [] => .fin (DecNum.ofInt 0)
  | _ =>
    let (neg, body) :=
      match cs with
      | '+' :: rest => (false, rest)
      | '-' :: rest => (true, rest)
      | rest => (false, rest)
    let signedCs := cs
    if body = ['I','n','f','i','n','i','t','y'] then
      if neg then .negInf else .posInf
    else
      match signedCs with
      | '0' :: x :: ds =>
        if x = 'x' ∨ x = 'X' then (match digitsToNat 16 ds with
          | some n => .fin (DecNum.ofInt n)
          | none => .nan)
        else if x = 'o' ∨ x = 'O' then (match digitsToNat 8 ds with
          | some n => .fin (DecNum.ofInt n)
          | none => .nan)
        else if x = 'b' ∨ x = 'B' then (match digitsToNat 2 ds with
          | some n => .fin (DecNum.ofInt n)
          | none => .nan)
        else
          (match parseUnsignedDecimal body with
           | some q => .fin (if neg then q.neg else q)
           | none => .nan)
      | _ =>
        match parseUnsignedDecimal body with
        | some q => .fin (if neg then q.neg else q)
        | none => .nan

/-- Strip trailing zero digits from a `k`-digit fraction, returning the
remaining fraction value and digit count. -/
def stripZeros : ℕ → ℕ → ℕ × ℕ
  | fr, 0 => (fr, 0)
  | fr, k + 1 => if fr % 10 = 0 ∧ fr ≠ 0 then stripZeros (fr / 10) k else (fr, k + 1)

/-- Decimal rendering of the nonnegative value `m * 10 ^ e`. -/
def decNumToStringNonneg (m : ℕ) (e : ℤ) : String :=
  if 0 ≤ e then toString (m * 10 ^ e.toNat)
  else
    let k := (-e).toNat
    let ip := m / 10 ^ k
    let fr := m % 10 ^ k
    if fr = 0 then toString ip
    else
      let p := stripZeros fr k
      let frs := toString p.1
      toString ip ++ "." ++ String.mk (List.replicate (p.2 - frs.length) '0') ++ frs

/-- JavaScript number-to-string on a finite value.  Approximates
JavaScript's formatting: exact decimal notation, no exponent forms. -/
def jsNumToString (q : DecNum) : String :=
  if q.mant < 0 then "-" ++ decNumToStringNonneg (-q.mant).toNat q.exp
  else decNumToStringNonneg q.mant.toNat q.exp

mutual

/-- JavaScript `ToString` on a JSON value (template literals, `String(v)`,
`localStorage.setItem` coercion).  Arrays stringify as the comma-join of
their elements with `null` becoming the empty string; plain objects
stringify as `[object Object]`. -/
def jsToString : Json → String
  | .null => "null"
  | .bool b => if b then "true" else "false"
  | .num q => jsNumToString q
  | .str s => s
  | .arr xs => String.intercalate "," (jsArrElems xs)
  | .obj _ => "[object Object]"

/-- Elements of an array under `Array.prototype.join`: `null` joins as the
empty string, every other element by its `ToString`. -/
def jsArrElems : List Json → List String
  | [] => []
  | .null :: rest => "" :: jsArrElems rest
  | v :: rest => jsToString v :: jsArrElems rest

end

/-- JavaScript `ToString` on a possibly-`undefined` value. -/
def jsToStringU : Option Json → String
  | none => "undefined"
  | some v => jsToString v

/-- JavaScript `ToNumber` on a JSON value (the implicit coercion in
`payload.exp * 1000`). -/
def toNumber : Json → JSNum
  | .null => .fin (DecNum.ofInt 0)
  | .bool b => .fin (DecNum.ofInt (if b then 1 else 0))
  | .num q => .fin q
  | .str s => strToNumber s
  | .arr xs => strToNumber (jsToString (.arr xs))
  | .obj _ => .nan

/-- Value of a base64-alphabet character. -/
def base64CharVal (c : Char) : Option ℕ :=
  if 'A' ≤ c ∧ c ≤ 'Z' then some (c.toNat - 65)
  else if 'a' ≤ c ∧ c ≤ 'z' then some (c.toNat - 97 + 26)
  else if '0' ≤ c ∧ c ≤ '9' then some (c.toNat - 48 + 52)
  else if c = '+' then some 62
  else if c = '/' then some 63
  else none

/-- Decode the padding-stripped character stream of a forgiving-base64
input: full groups of four 6-bit values give three bytes; a trailing pair
gives one byte and a trailing triple gives two (excess bits discarded, as
`atob` does); a single trailing character is an error. -/
def atobCore : List Char → Option (List ℕ)
  | [] => some []
  | [a, b] => do
    let va ← base64CharVal a
    let vb ← base64CharVal b
    pure [va * 4 + vb / 16]
  | [a, b, c] => do
    let va ← base64CharVal a
    let vb ← base64CharVal b
    let vc ← base64CharVal c
    pure [va * 4 + vb / 16, (vb % 16) * 16 + vc / 4]
  | a :: b :: c :: d :: rest => do
    let va ← base64CharVal a
    let vb ← base64CharVal b
    let vc ← base64CharVal c
    let vd ← base64CharVal d
    let tail ← atobCore rest
    pure ([va * 4 + vb / 16, (vb % 16) * 16 + vc / 4, (vc % 4) * 64 + vd] ++ tail)
  | [_] => none

/-- Strip at most two trailing `=` padding characters. -/
def stripBase64Pad (cs : List Char) : List Char :=
  match cs.reverse with
  | '=' :: '=' :: rest => rest.reverse
  | '=' :: rest => rest.reverse
  | _ => cs

/-- The `atob` builtin (WHATWG forgiving-base64 decode): remove ASCII
whitespace; when the length is a multiple of four, strip up to two trailing
`=`; fail when the remaining length is ≡ 1 (mod 4) or any character is
outside the base64 alphabet; otherwise yield the decoded bytes. -/
def atob (s : String) : Option (List ℕ) :=
  let cs := s.toList.filter (fun c =>
    ¬ (c = ' ' ∨ c = '\t' ∨ c = '\n' ∨ c = '\x0c' ∨ c = '\r'))
  let cs := if cs.length % 4 = 0 then stripBase64Pad cs else cs
  if cs.length % 4 = 1 then none else atobCore cs

/-- True for a UTF-8 continuation byte `0x80–0xBF`. -/
def utf8Cont (b : ℕ) : Bool := 0x80 ≤ b ∧ b ≤ 0xbf

/-- Strict UTF-8 decoding of a byte list (fuelled; `fuel ≥ length` makes it
total).  Rejects overlong forms, surrogate encodings and values beyond
U+10FFFF — exactly the byte sequences on which the source's
percent-encode-then-`decodeURIComponent` idiom throws `URIError`. -/
def utf8DecodeAux : ℕ → List ℕ → Option (List Char)
  | _, [] => some []
  | 0, _ :: _ => none
  | fuel + 1, b :: rest =>
    if b < 0x80 then do
      let tail ← utf8DecodeAux fuel rest
      pure (Char.ofNat b :: tail)
    else if 0xc2 ≤ b ∧ b ≤ 0xdf then
      match rest with
      | b2 :: rest2 =>
        if utf8Cont b2 then do
          let tail ← utf8DecodeAux fuel rest2
          pure (Char.ofNat ((b - 0xc0) * 64 + (b2 - 0x80)) :: tail)
        else none
      | _ => none
    else if 0xe0 ≤ b ∧ b ≤ 0xef then
      match rest with
      | b2 :: b3 :: rest3 =>
        let b2ok :=
          if b = 0xe0 then 0xa0 ≤ b2 ∧ b2 ≤ 0xbf
          else if b = 0xed then 0x80 ≤ b2 ∧ b2 ≤ 0x9f
          else utf8Cont b2
        if b2ok ∧ utf8Cont b3 then do
          let tail ← utf8DecodeAux fuel rest3
          pure (Char.ofNat ((b - 0xe0) * 4096 + (b2 - 0x80) * 64 + (b3 - 0x80)) :: tail)
        else none
      | _ => none
    else if 0xf0 ≤ b ∧ b ≤ 0xf4 then
      match rest with
      | b2 :: b3 :: b4 :: rest4 =>
        let b2ok :=
          if b = 0xf0 then 0x90 ≤ b2 ∧ b2 ≤ 0xbf
          else if b = 0xf4 then 0x80 ≤ b2 ∧ b2 ≤ 0x8f
          else utf8Cont b2
        if b2ok ∧ utf8Cont b3 ∧ utf8Cont b4 then do
          let tail ← utf8DecodeAux fuel rest4
          pure (Char.ofNat ((b - 0xf0) * 262144 + (b2 - 0x80) * 4096 +
            (b3 - 0x80) * 64 + (b4 - 0x80)) :: tail)
        else none
      | _ => none
    else none

/-- UTF-8 decode a byte list to a string, `none` on invalid input. -/
def utf8Decode (bytes : List ℕ) : Option String :=
  (utf8DecodeAux bytes.length bytes).map String.mk

/-- Double-quote character (U+0022). -/
def quoteChar : Char := Char.ofNat 34

/-- Backslash character (U+005C). -/
def backslashChar : Char := Char.ofNat 92

/-- Opening-brace character (U+007B). -/
def lbraceChar : Char := Char.ofNat 123

/-- Closing-brace character (U+007D). -/
def rbraceChar : Char := Char.ofNat 125

/-- JSON insignificant whitespace (space, tab, line feed, carriage return). -/
def jsonWs (c : Char) : Bool := c = ' ' ∨ c = '\t' ∨ c = '\n' ∨ c = '\r'

/-- Four hex digits, as used by a `\uXXXX` escape. -/
def hex4 : List Char → Option (ℕ × List Char)
  | a :: b :: c :: d :: rest => do
    let va ← digitVal 16 a
    let vb ← digitVal 16 b
    let vc ← digitVal 16 c
    let vd ← digitVal 16 d
    pure (((va * 16 + vb) * 16 + vc) * 16 + vd, rest)
  | _ => none

/-- Body of a JSON string literal, after the opening quote: yields the
content characters and the remainder after the closing quote.  `\uXXXX`
surrogate pairs combine into one character; a lone surrogate (legal for
`JSON.parse`, unrepresentable as a unicode scalar) becomes U+FFFD. -/
def parseJStringAux : ℕ → List Char → Option (List Char × List Char)
  | 0, _ => none
  | _, [] => none
  | fuel + 1, c :: rest =>
    if c = quoteChar then some ([], rest)
    else if c = backslashChar then
      match rest with
      | [] => none
      | e :: rest2 =>
        if e = quoteChar ∨ e = backslashChar ∨ e = '/' then
          (parseJStringAux fuel rest2).map (fun pr => (e :: pr.1, pr.2))
        else if e = 'b' then
          (parseJStringAux fuel rest2).map (fun pr => (Char.ofNat 8 :: pr.1, pr.2))
        else if e = 'f' then
          (parseJStringAux fuel rest2).map (fun pr => (Char.ofNat 12 :: pr.1, pr.2))
        else if e = 'n' then
          (parseJStringAux fuel rest2).map (fun pr => ('\n' :: pr.1, pr.2))
        else if e = 'r' then
          (parseJStringAux fuel rest2).map (fun pr => ('\r' :: pr.1, pr.2))
        else if e = 't' then
          (parseJStringAux fuel rest2).map (fun pr => ('\t' :: pr.1, pr.2))
        else if e = 'u' then
          match hex4 rest2 with
          | none => none
          | some (n, rest3) =>
            if 0xd800 ≤ n ∧ n ≤ 0xdbff then
              match rest3 with
              | e1 :: e2 :: rest4 =>
                if e1 = backslashChar ∧ e2 = 'u' then
                  match hex4 rest4 with
                  | some (m, rest5) =>
                    if 0xdc00 ≤ m ∧ m ≤ 0xdfff then
                      (parseJStringAux fuel rest5).map (fun pr =>
                        (Char.ofNat (0x10000 + (n - 0xd800) * 1024 + (m - 0xdc00)) :: pr.1,
                         pr.2))
                    else
                      (parseJStringAux fuel rest3).map (fun pr =>
                        (Char.ofNat 0xfffd :: pr.1, pr.2))
                  | none =>
                    (parseJStringAux fuel rest3).map (fun pr =>
                      (Char.ofNat 0xfffd :: pr.1, pr.2))
                else
                  (parseJStringAux fuel rest3).map (fun pr =>
                    (Char.ofNat 0xfffd :: pr.1, pr.2))
              | _ =>
                (parseJStringAux fuel rest3).map (fun pr =>
                  (Char.ofNat 0xfffd :: pr.1, pr.2))
            else if 0xdc00 ≤ n ∧ n ≤ 0xdfff then
              (parseJStringAux fuel rest3).map (fun pr =>
                (Char.ofNat 0xfffd :: pr.1, pr.2))
            else
              (parseJStringAux fuel rest3).map (fun pr =>
                (Char.ofNat n :: pr.1, pr.2))
        else none
    else if c.toNat < 0x20 then none
    else (parseJStringAux fuel rest).map (fun pr => (c :: pr.1, pr.2))

/-- JSON number literal: `-? (0 | [1-9]digits) frac? exp?`; yields the value
and the remainder.  The stricter-than-JavaScript JSON grammar (no leading
`+`, no leading zeros, no bare `.5`) is enforced. -/
def parseJNumber (cs : List Char) : Option (DecNum × List Char) :=
  let (neg, cs1) :=
    match cs with
    | '-' :: r => (true, r)
    | r => (false, r)
  let ipRes : Option (ℕ × List Char) :=
    match cs1 with
    | '0' :: r => some (0, r)
    | c :: _ =>
      if c.isDigit then
        (digitsToNat 10 (cs1.takeWhile (fun d => d.isDigit))).map
          (fun n => (n, cs1.dropWhile (fun d => d.isDigit)))
      else none
    | [] => none
  match ipRes with
  | none => none
  | some (ip, rest1) =>
    let fracRes : Option ((ℕ × ℕ) × List Char) :=
      match rest1 with
      | '.' :: r2 =>
        let fd := r2.takeWhile (fun d => d.isDigit)
        if fd.isEmpty then none
        else
          (digitsToNat 10 fd).map (fun n =>
            ((n, fd.length), r2.dropWhile (fun d => d.isDigit)))
      | _ => some ((0, 0), rest1)
    match fracRes with
    | none => none
    | some (fq, rest2) =>
      let expRes : Option (ℤ × List Char) :=
        match rest2 with
        | e :: r3 =>
          if e = 'e' ∨ e = 'E' then
            let (esign, r4) :=
              match r3 with
              | '+' :: rr => ((1 : ℤ), rr)
              | '-' :: rr => ((-1 : ℤ), rr)
              | rr => ((1 : ℤ), rr)
            let ed := r4.takeWhile (fun d => d.isDigit)
            if ed.isEmpty then none
            else
              (digitsToNat 10 ed).map (fun n =>
                (esign * n, r4.dropWhile (fun d => d.isDigit)))
          else some (0, rest2)
        | [] => some (0, rest2)
      match expRes with
      | none => none
      | some (ex, rest3) =>
        let mag : DecNum := ⟨(ip * 10 ^ fq.2 + fq.1 : ℕ), ex - fq.2⟩
        some (if neg then mag.neg else mag, rest3)

mutual

/-- One JSON value (leading whitespace allowed), per `JSON.parse`'s
grammar; fuelled recursive descent. -/
def parseJValue : ℕ → List Char → Option (Json × List Char)
  | 0, _ => none
  | fuel + 1, cs0 =>
    let cs := cs0.dropWhile jsonWs
    match cs with
    | [] => none
    | c :: rest =>
      if c = quoteChar then
        (parseJStringAux rest.length rest).map (fun pr =>
          (Json.str (String.mk pr.1), pr.2))
      else if c = '[' then
        let cs2 := rest.dropWhile jsonWs
        match cs2 with
        | ']' :: r => some (Json.arr [], r)
        | _ => (parseJArrayItems fuel cs2).map (fun pr => (Json.arr pr.1, pr.2))
      else if c = lbraceChar then
        let cs2 := rest.dropWhile jsonWs
        match cs2 with
        | r0 :: r =>
          if r0 = rbraceChar then some (Json.obj [], r)
          else (parseJObjectItems fuel cs2).map (fun pr => (Json.obj pr.1, pr.2))
        | [] => none
      else if c = 't' then
        match rest with
        | 'r' :: 'u' :: 'e' :: r => some (Json.bool true, r)
        | _ => none
      else if c = 'f' then
        match rest with
        | 'a' :: 'l' :: 's' :: 'e' :: r => some (Json.bool false, r)
        | _ => none
      else if c = 'n' then
        match rest with
        | 'u' :: 'l' :: 'l' :: r => some (Json.null, r)
        | _ => none
      else (parseJNumber cs).map (fun pr => (Json.num pr.1, pr.2))

/-- Comma-separated array items up to the closing `]` (nonempty case). -/
def parseJArrayItems : ℕ → List Char → Option (List Json × List Char)
  | 0, _ => none
  | fuel + 1, cs =>
    match parseJValue fuel cs with
    | none => none
    | some (v, rest) =>
      match rest.dropWhile jsonWs with
      | ',' :: r => (parseJArrayItems fuel r).map (fun pr => (v :: pr.1, pr.2))
      | ']' :: r => some ([v], r)
      | _ => none

/-- Comma-separated `"key": value` members up to the closing brace
(nonempty case). -/
def parseJObjectItems : ℕ → List Char → Option (List (String × Json) × List Char)
  | 0, _ => none
  | fuel + 1, cs =>
    match cs.dropWhile jsonWs with
    | c :: rest =>
      if c = quoteChar then
        match parseJStringAux rest.length rest with
        | none => none
        | some (kcs, rest2) =>
          match rest2.dropWhile jsonWs with
          | ':' :: r4 =>
            match parseJValue fuel r4 with
            | none => none
            | some (v, rest5) =>
              match rest5.dropWhile jsonWs with
              | ',' :: r7 =>
                (parseJObjectItems fuel r7).map (fun pr =>
                  ((String.mk kcs, v) :: pr.1, pr.2))
              | r0 :: r7 =>
                if r0 = rbraceChar then some ([(String.mk kcs, v)], r7) else none
              | [] => none
          | _ => none
      else none
    | [] => none

end

/-- The `JSON.parse` builtin: parse one value, allow trailing whitespace
only; `none` models a thrown `SyntaxError`. -/
def jsonParse (s : String) : Option Json :=
  let cs := s.toList
  match parseJValue (2 * cs.length + 8) cs with
  | some (v, rest) => if (rest.dropWhile jsonWs).isEmpty then some v else none
  | none => none

/-- Split a character list on a separator character; JavaScript
`String.prototype.split` with a single-character separator
(`"".split(c) = [""]`, and a trailing separator yields a trailing `""`). -/
def splitCharsOn (sep : Char) : List Char → List (List Char)
  | [] => [[]]
  | c :: rest =>
    let groups := splitCharsOn sep rest
    if c = sep then [] :: groups
    else
      match groups with
      | g :: gs => (c :: g) :: gs
      | [] => [[c]]

/-- JavaScript `token.split('.')`. -/
def jsSplitDot (s : String) : List String :=
  (splitCharsOn '.' s.toList).map String.mk

/-- The `decodeJWT` helper (src/lib/session-restore.ts:203-217): take the
second dot-separated segment (`token.split('.')[1]` — an absent segment
makes the subsequent `.replace` throw, caught below), translate the
base64url alphabet to base64, `atob`, UTF-8-decode the bytes (the
percent-encode-then-`decodeURIComponent` idiom), `JSON.parse`; `none` for
the `catch` branch returning null. -/
def decodeJWT (token : String) : Option Json :=
  match (jsSplitDot token).get? 1 with
  | none => none
  | some base64Url =>
    let base64 := String.mk (base64Url.toList.map (fun c =>
      if c = '-' then '+' else if c = '_' then '/' else c))
    match atob base64 with
    | none => none
    | some bytes =>
      match utf8Decode bytes with
      | none => none
      | some jsonPayload => jsonParse jsonPayload

/-- The `isTokenExpired` helper (src/lib/session-restore.ts:220-230):
decode; `!payload || !payload.exp` → expired; otherwise
`payload.exp * 1000 < Date.now()` with JavaScript coercion.  `now` is the
current time in milliseconds (`Date.now()`). -/
def isTokenExpired (token : String) (now : ℤ) : Bool :=
  match decodeJWT token with
  | none => true
  | some payload =>
    if ¬ jsTruthy payload then true
    else
      match jsGetField payload "exp" with
      | none => true
      | some expv =>
        if ¬ jsTruthy expv then true
        else JSNum.lt (JSNum.mul (toNumber expv) (.fin (DecNum.ofInt 1000)))
          (.fin (DecNum.ofInt now))

/-- The `isTokenValid` helper (src/lib/session-restore.ts:232-247):
exactly three dot-separated parts, decodable to a truthy payload, and not
expired. -/
def isTokenValid (token : String) (now : ℤ) : Bool :=
  if (jsSplitDot token).length ≠ 3 then false
  else
    match decodeJWT token with
    | none => false
    | some payload =>
      if ¬ jsTruthy payload then false
      else ! isTokenExpired token now

/-- Case-insensitive substring test, modelling
`text.toLowerCase().includes(needle)` (ASCII lowering, as the compared
needles are ASCII). -/
def strContainsLower (text needle : String) : Bool :=
  ((text.toList.map Char.toLower).tails.any (fun t => needle.toList.isPrefixOf t))

/-- The `isTokenExpiredError` classifier (src/lib/api/index.ts:35-40). -/
def isTokenExpiredError (errorMessage : String) : Bool :=
  strContainsLower errorMessage "jwt expired" ∨
  strContainsLower errorMessage "token expired" ∨
  strContainsLower errorMessage "expired"

/-- The `isTokenInvalidError` classifier (src/lib/api/index.ts:45-51). -/
def isTokenInvalidError (errorMessage : String) : Bool :=
  strContainsLower errorMessage "invalid signature" ∨
  strContainsLower errorMessage "invalid token" ∨
  strContainsLower errorMessage "malformed" ∨
  strContainsLower errorMessage "invalid"

/-- Redux actions dispatched by the session/auth flow (logged in order). -/
inductive ReduxAction where
  | logout : ReduxAction
  | authFailed (msg : String) : ReduxAction
  | setUser (user : Json) : ReduxAction

/-- The two `localStorage` slots (`access_token`, `refresh_token`);
`none` models an absent key. -/
structure TokenStore where
  access : Option String
  refresh : Option String

/-- The `setAccessToken` storage helper. -/
def setAccessToken (st : TokenStore) (token : String) : TokenStore :=
  { st with access := some token }

/-- The `setRefreshToken` storage helper. -/
def setRefreshToken (st : TokenStore) (token : String) : TokenStore :=
  { st with refresh := some token }

/-- The `removeAccessToken` storage helper. -/
def removeAccessToken (st : TokenStore) : TokenStore := { st with access := none }

/-- The `removeRefreshToken` storage helper. -/
def removeRefreshToken (st : TokenStore) : TokenStore := { st with refresh := none }

/-- Truthiness of a `localStorage.getItem` result (`null` and `''` falsy). -/
def optStrTruthy : Option String → Bool
  | none => false
  | some s => s ≠ ""

/-- Header maps (`Record<string, string>`), as ordered key-value pairs;
object spread appends, and a later binding overrides an earlier one. -/
abbrev Headers := List (String × String)

/-- Effective value of a header key: the last binding wins. -/
def hget (h : Headers) (k : String) : Option String :=
  match h with
  | [] => none
  | (k', v) :: rest =>
    match hget rest k with
    | some r => some r
    | none => if k' = k then some v else none

/-- Request payloads: `FormData`, a string, or any other value. -/
inductive JsData where
  | form : JsData
  | jstr (s : String) : JsData
  | jval (v : Json) : JsData

/-- Truthiness of an optional request payload. -/
def jsDataTruthy : Option JsData → Bool
  | none => false
  | some .form => true
  | some (.jstr s) => s ≠ ""
  | some (.jval v) => jsTruthy v

/-- The `getContentTypeHeaders` request helper. -/
def getContentTypeHeaders (method : String) (data : Option JsData) : Headers :=
  if method = "get" ∨ ¬ jsDataTruthy data then []
  else
    match data with
    | some .form => [("Content-Type", "multipart/form-data")]
    | some (.jstr _) => [("Content-Type", "text/plain")]
    | _ => [("Content-Type", "application/json")]

/-- The `getAuthHeaders` request helper: a bearer header when the token is
truthy (the template literal stringifies a non-string token value). -/
def getAuthHeaders (token : Option Json) : Headers :=
  match token with
  | some t => if jsTruthy t then [("Authorization", "Bearer " ++ jsToString t)] else []
  | none => []

/-- The `buildRequestHeaders` request helper:
`{...contentTypeHeaders, ...customHeaders, ...authHeaders}`. -/
def buildRequestHeaders (method : String) (data : Option JsData)
    (token : Option Json) (customHeaders : Headers) : Headers :=
  getContentTypeHeaders method data ++ customHeaders ++ getAuthHeaders token

/-- One request handed to `axiosClient`. -/
structure AxReq where
  url : String
  method : String
  data : Option JsData
  params : Option Json
  headers : Headers

/-- A settled axios response: HTTP status and parsed body. -/
structure AxResp where
  status : ℤ
  data : Json

/-- Outcome of one `axiosClient` call: resolved, or rejected with an
`AxiosError` that may carry a response (`none` for pure transport
failures) and always carries a message. -/
inductive AxOutcome where
  | ok (resp : AxResp)
  | fail (response : Option AxResp) (message : String)

/-- World state threaded through the embedded effectful code: the token
storage, the transport oracle (outcome of the n-th `axiosClient` call),
the log of requests issued, and the log of Redux actions dispatched. -/
structure World where
  store : TokenStore
  oracle : ℕ → AxOutcome
  calls : List AxReq
  actions : List ReduxAction

/-- One `axiosClient` invocation: consult the oracle at the current call
index and log the request. -/
def axiosCall (req : AxReq) (w : World) : AxOutcome × World :=
  (w.oracle w.calls.length, { w with calls := w.calls ++ [req] })

/-- Result reported by `attemptTokenRefresh`.  `newToken` is the raw
`tokenData.token` field (possibly absent). -/
structure RefreshOutcome where
  success : Bool
  newToken : Option Json
  error : Option String

/-- The `attemptTokenRefresh` helper (src/lib/api/index.ts:56-106): absent
or empty refresh token → fail without network; invalid refresh token →
fail without network; otherwise POST the refresh endpoint and, on a
`statusCode === 200` envelope with truthy `data`, store both stringified
token fields and report success; any other envelope or a rejection
reports failure. -/
def attemptTokenRefresh (now : ℤ) (w : World) : RefreshOutcome × World :=
  match w.store.refresh with
  | none => (⟨false, none, some "No refresh token available"⟩, w)
  | some refreshToken =>
    if refreshToken = "" then (⟨false, none, some "No refresh token available"⟩, w)
    else if ¬ isTokenValid refreshToken now then
      (⟨false, none, some "Refresh token is invalid or expired"⟩, w)
    else
      let (outcome, w') := axiosCall
        ⟨"auth/refresh-token", "POST",
         some (.jval (.obj [("refreshToken", .str refreshToken)])), none,
         [("Content-Type", "application/json")]⟩ w
      match outcome with
      | .fail _ _ => (⟨false, none, some "Refresh request failed"⟩, w')
      | .ok resp =>
        let dataField := jsGetField resp.data "data"
        if jsEqNum (jsGetField resp.data "statusCode") 200 ∧ jsOptTruthy dataField then
          let tokenData := dataField.getD Json.null
          let tok := jsGetField tokenData "token"
          let rtok := jsGetField tokenData "refreshToken"
          let st := setRefreshToken (setAccessToken w'.store (jsToStringU tok)) (jsToStringU rtok)
          (⟨true, tok, none⟩, { w' with store := st })
        else (⟨false, none, some "Invalid refresh response"⟩, w')

/-- The `clearAuthAndLogout` helper (src/lib/api/index.ts:111-133): clear
both tokens; when a dispatcher is available, dispatch `logout` then
`authFailed` with either the session-expiry banner or the given message. -/
def clearAuthAndLogout (w : World) (hasDispatch : Bool) (message : String)
    (isSessionExpiry : Bool) : World :=
  let st := removeRefreshToken (removeAccessToken w.store)
  let w' := { w with store := st }
  if hasDispatch then
    { w' with actions := w'.actions ++ [ReduxAction.logout,
        ReduxAction.authFailed (if isSessionExpiry then
          "🔒 Your session has expired. Please log in again to continue."
        else message)] }
  else w'

/-- The `handleSessionExpiredLogout` helper (src/lib/api/index.ts:138-144). -/
def handleSessionExpiredLogout (w : World) (hasDispatch : Bool) : World :=
  clearAuthAndLogout w hasDispatch "Session expired. Please login again." true

/-- Result of `handle401Error`. -/
structure Handle401Result where
  shouldRetry : Bool
  newToken : Option Json

/-- The `handle401Error` helper (src/lib/api/index.ts:185-220): take
`errorData?.message || ''`; EXPIRED → refresh, returning retry data on
success and a session-expired logout on failure; INVALID and UNKNOWN →
immediate logout.  A truthy non-string `message` makes
`errorMessage.toLowerCase()` throw, modelled by `.error ()` (the world is
unchanged at that point). -/
def handle401Error (errorData : Option Json) (hasDispatch : Bool) (now : ℤ)
    (w : World) : Except Unit (Handle401Result × World) :=
  let msgField :=
    match errorData with
    | some d => jsGetField d "message"
    | none => none
  let errorMessage : Json :=
    match msgField with
    | some v => if jsTruthy v then v else .str ""
    | none => .str ""
  match errorMessage with
  | .str s =>
    if isTokenExpiredError s then
      let (refreshResult, w') := attemptTokenRefresh now w
      if refreshResult.success then .ok (⟨true, refreshResult.newToken⟩, w')
      else .ok (⟨false, none⟩, handleSessionExpiredLogout w' hasDispatch)
    else if isTokenInvalidError s then
      .ok (⟨false, none⟩,
        clearAuthAndLogout w hasDispatch "Authentication failed. Please login again." false)
    else
      .ok (⟨false, none⟩,
        clearAuthAndLogout w hasDispatch "Authentication error. Please login again." false)
  | _ => .error ()

/-- Error payload surfaced by the base query:
`err.response?.data || err.message`. -/
inductive ErrData where
  | body (v : Json)
  | msg (s : String)

/-- Final value of one `axiosBaseQuery` execution: `{ data }` or
`{ error: { status, data } }`. -/
inductive QueryResult where
  | data (v : Json)
  | error (status : Option ℤ) (edata : ErrData)

/-- The `err.response?.data || err.message` expression. -/
def errDataOf (response : Option AxResp) (message : String) : ErrData :=
  match response with
  | some resp => if jsTruthy resp.data then .body resp.data else .msg message
  | none => .msg message

/-- The `axiosBaseQuery` base query (src/lib/api/index.ts:426-494, the
helper-delegating variant): build headers from the stored access token,
dispatch; on a rejection with status 401 whose url is not the refresh
endpoint, run `handle401Error` and, when it asks for a retry with a truthy
new token, retry once with rebuilt headers — returning the retry body on
success and the ORIGINAL error on retry failure; every other rejection is
surfaced as `{status, data-or-message}`.  The outer `Except` propagates a
throw from `handle401Error`. -/
def axiosBaseQuery (url : String) (method : String) (data : Option JsData)
    (params : Option Json) (headers : Headers) (hasDispatch : Bool) (now : ℤ)
    (w : World) : Except Unit QueryResult × World :=
  let token := w.store.access
  let customHeaders := headers
  let requestHeaders := buildRequestHeaders method data (token.map Json.str) customHeaders
  let requestConfig : AxReq := ⟨url, method, data, params, requestHeaders⟩
  let (outcome, w1) := axiosCall requestConfig w
  match outcome with
  | .ok result => (.ok (.data result.data), w1)
  | .fail response message =>
    let status : Option ℤ := response.map AxResp.status
    if status = some 401 ∧ url ≠ "auth/refresh-token" then
      let errorData : Option Json := response.map AxResp.data
      match handle401Error errorData hasDispatch now w1 with
      | .error e => (.error e, w1)
      | .ok (authResult, w2) =>
        if authResult.shouldRetry ∧ jsOptTruthy authResult.newToken then
          let retryHeaders := buildRequestHeaders method data authResult.newToken customHeaders
          let (retryOutcome, w3) := axiosCall { requestConfig with headers := retryHeaders } w2
          match retryOutcome with
          | .ok retryResult => (.ok (.data retryResult.data), w3)
          | .fail _ _ => (.ok (.error status (errDataOf response message)), w3)
        else (.ok (.error status (errDataOf response message)), w2)
    else (.ok (.error status (errDataOf response message)), w1)

/-- Result of `fetchUserProfile`. -/
structure ProfileResult where
  success : Bool
  user : Option Json
  error : Option String

/-- The `fetchUserProfile` helper (src/lib/session-restore.ts:17-39).  The
awaited RTK-Query profile dispatch is an oracle: `.error ()` models the
await throwing (caught internally), `.ok d` a settled result whose
`result.data` is `d` (`none` when the query errored). -/
def fetchUserProfile (o : Except Unit (Option Json)) : ProfileResult :=
  match o with
  | .error _ => ⟨false, none, some "Profile fetch failed"⟩
  | .ok resultData =>
    match resultData with
    | some d =>
      if jsTruthy d ∧ jsEqNum (jsGetField d "statusCode") 200 then
        ⟨true, jsGetField d "data", none⟩
      else ⟨false, none, some "Invalid profile response"⟩
    | none => ⟨false, none, some "Invalid profile response"⟩

/-- Oracles for one `restoreUserSession` run: `unexpected` injects an
exception reaching the top-level catch; `refreshThrows` makes the awaited
refresh step reject (caught by the inner try); `profile` drives the (at
most one) profile fetch — the two guarded fetch branches are mutually
exclusive because a valid access token is by definition not expired. -/
structure RestoreEnv where
  unexpected : Bool
  refreshThrows : Bool
  profile : Except Unit (Option Json)

/-- Fallback cleanup of `restoreUserSession` (lines 88-92, also reused by
the top-level catch at lines 94-101): clear both tokens, dispatch logout. -/
def restoreCleanup (w : World) : World :=
  let st := removeRefreshToken (removeAccessToken w.store)
  { w with store := st, actions := w.actions ++ [ReduxAction.logout] }

/-- Lines 69-92 of `restoreUserSession`: the expired-access/valid-refresh
branch (refresh then fetch profile), falling through to the cleanup. -/
def restoreTail (env : RestoreEnv) (now : ℤ) (a r : String) (w : World) : World :=
  if isTokenExpired a now ∧ isTokenValid r now then
    if env.refreshThrows then restoreCleanup w
    else
      let (refreshResult, w2) := attemptTokenRefresh now w
      if refreshResult.success then
        let profileResult := fetchUserProfile env.profile
        if profileResult.success ∧ jsOptTruthy profileResult.user then
          { w2 with actions := w2.actions ++
              [ReduxAction.setUser (profileResult.user.getD Json.null)] }
        else restoreCleanup w2
      else restoreCleanup w2
  else restoreCleanup w

/-- The `restoreUserSession` procedure (src/lib/session-restore.ts:45-102).
`env.unexpected` models any unexpected exception funnelled into the
top-level catch. -/
def restoreUserSession (env : RestoreEnv) (now : ℤ) (w : World) : World :=
  if env.unexpected then restoreCleanup w
  else if ¬ optStrTruthy w.store.access ∨ ¬ optStrTruthy w.store.refresh then
    { w with actions := w.actions ++ [ReduxAction.logout] }
  else
    let a := w.store.access.getD ""
    let r := w.store.refresh.getD ""
    if isTokenValid a now ∧ isTokenValid r now then
      let profileResult := fetchUserProfile env.profile
      if profileResult.success ∧ jsOptTruthy profileResult.user then
        { w with actions := w.actions ++
            [ReduxAction.setUser (profileResult.user.getD Json.null)] }
      else restoreTail env now a r w
    else restoreTail env now a r w

/-- The `User` record of the auth slice
(src/@redux/features/auth/auth.slice.ts:4-9). -/
structure User where
  id : String
  email : String
  name : String
deriving DecidableEq

/-- The `AuthState` record (auth.slice.ts:11-16). -/
structure AuthState where
  user : Option User
  isAuthenticated : Bool
  loading : Bool
  error : Option String
deriving DecidableEq

/-- The slice's `initialState` (auth.slice.ts:18-23). -/
def authInitialState : AuthState :=
  { user := none, isAuthenticated := false, loading := false, error := none }

/-- The four actions of the auth slice; `setUser`'s payload has the
non-nullable `User` type. -/
inductive AuthAction where
  | setUser (u : User) : AuthAction
  | logout : AuthAction
  | authLoading : AuthAction
  | authFailed (msg : String) : AuthAction

/-- The auth slice reducer (auth.slice.ts:28-49). -/
def authReducer (s : AuthState) : AuthAction → AuthState
  | .setUser u =>
    { s with user := some u, isAuthenticated := true, loading := false, error := none }
  | .logout =>
    { user := none, isAuthenticated := false, loading := false, error := none }
  | .authLoading => { s with loading := true, error := none }
  | .authFailed m => { s with loading := false, error := some m }

/-- The documented `AuthState` invariant: authenticated implies a user is
present, and loading implies no error is displayed. -/
def AuthInv (s : AuthState) : Prop :=
  (s.isAuthenticated = true → s.user ≠ none) ∧ (s.loading = true → s.error = none)

instance (s : AuthState) : Decidable (AuthInv s) := by
  unfold AuthInv
  infer_instance

/-- A structurally valid token whose claims are `{"exp":1}` (not expired
before t = 1000 ms); `e30` is base64url for `{}` and `eyJleHAiOjF9` for
the claims. -/
def validToken : String := "e30.eyJleHAiOjF9.sig"

/-- A refresh-success envelope carrying new tokens. -/
def refreshOkBody : Json :=
  Json.obj [("statusCode", Json.num ⟨200, 0⟩),
    ("data", Json.obj [("token", Json.str "NEW"), ("refreshToken", Json.str "NEW2")])]

/-- A 401 error body whose message classifies as EXPIRED. -/
def expiredMsgBody : Json := Json.obj [("message", Json.str "jwt expired")]

/-- Transport oracle for the refresh-retry scenario: the first call
rejects with a 401 EXPIRED body, the second (the refresh) resolves with
new tokens, and every later call rejects with a 500 carrying `"boom"`. -/
def retryOracle : ℕ → AxOutcome := fun n =>
  match n with
  | 0 => .fail (some ⟨401, expiredMsgBody⟩) "Request failed with status code 401"
  | 1 => .ok ⟨200, refreshOkBody⟩
  | _ => .fail (some ⟨500, Json.str "boom"⟩) "Request failed with status code 500"

/-- Concatenating a binding for `k` makes it the effective value of `k`
(the last binding wins). -/
theorem hget_append_single (h : Headers) (k v : String) :
    hget (h ++ [(k, v)]) k = some v := by
  induction h with
  | nil => simp [hget]
  | cons a rest ih =>
    cases a with
    | mk k' v' => simp [hget, ih]

/-- C4: the `AuthState` invariant — `isAuthenticated = true` implies
`user ≠ null` and `loading = true` implies `error = null` — holds in the
initial state and is preserved by each of the four transitions `setUser`,
`logout`, `authLoading` and `authFailed` from any state satisfying it. -/
theorem authReducer_preserves_AuthInv :
    AuthInv authInitialState ∧
    ∀ (s : AuthState) (a : AuthAction), AuthInv s → AuthInv (authReducer s a) := by
  refine ⟨by decide, ?_⟩
  rintro s a ⟨h1, h2⟩
  cases a with
  | setUser u => exact ⟨fun _ => by simp [authReducer], fun _ => by simp [authReducer]⟩
  | logout => exact ⟨fun h => by simp [authReducer] at h, fun _ => by simp [authReducer]⟩
  | authLoading =>
    exact ⟨fun h => by simpa [authReducer] using h1 (by simpa [authReducer] using h),
           fun _ => by simp [authReducer]⟩
  | authFailed m =>
    exact ⟨fun h => by simpa [authReducer] using h1 (by simpa [authReducer] using h),
           fun h => by simp [authReducer] at h⟩

/-- Witness for C4: the invariant survives `authLoading` from the initial
state. -/
theorem authReducer_preserves_AuthInv_witness :
    AuthInv (authReducer authInitialState AuthAction.authLoading) :=
  authReducer_preserves_AuthInv.2 authInitialState AuthAction.authLoading (by decide)

/-- C2 counterexample: the token `"x.MQ"` has two dot-separated segments,
yet `decodeJWT` returns the parsed claims `1` (its second segment is
base64 for `"1"`), not null: the claimed exactly-3-segment requirement is
not enforced by the code. -/
theorem decodeJWT_c2_counterexample :
    (jsSplitDot "x.MQ").length ≠ 3 ∧ decodeJWT "x.MQ" ≠ none := by
  refine ⟨by decide, ?_⟩
  intro h
  rw [show decodeJWT "x.MQ" = some (Json.num ⟨1, 0⟩) from rfl] at h
  exact Option.noConfusion h

/-- C2 (amended): `decodeJWT` reads only the second dot-separated segment
and never checks the segment count: it returns null when there are fewer
than two segments (the segment read is `undefined`), while a token with
two or four segments whose second segment base64url-decodes to JSON yields
non-null claims; it never raises (it is total by construction, modelling
the catch-all). -/
theorem decodeJWT_segments_amended :
    (∀ t : String, (jsSplitDot t).length = 1 → decodeJWT t = none) ∧
    decodeJWT "a.MQ.b.c" = some (Json.num ⟨1, 0⟩) ∧
    (jsSplitDot "a.MQ.b.c").length = 4 := by
  refine ⟨?_, rfl, by decide⟩
  intro t h
  have hnone : (jsSplitDot t).get? 1 = none := by
    rw [List.get?_eq_none]
    omega
  unfold decodeJWT
  rw [hnone]

/-- Witness for C2 (amended): a dot-free token decodes to null. -/
theorem decodeJWT_segments_amended_witness : decodeJWT "abc" = none :=
  decodeJWT_segments_amended.1 "abc" (by decide)

/-- A value with a readable field is an object, hence truthy. -/
theorem jsGetField_some_truthy (p : Json) (k : String) (v : Json)
    (h : jsGetField p k = some v) : jsTruthy p = true := by
  cases p <;> simp [jsGetField, jsTruthy] at h ⊢

/-- C8 counterexample: the token whose claims are `{"exp":"abc"}` lacks a
numeric `exp`, yet `isTokenExpired` reports it NOT expired at time 0: the
truthy string coerces to NaN and `NaN < now` is false — the code is not
fail-closed there. -/
theorem isTokenExpired_c8_counterexample :
    decodeJWT "a.eyJleHAiOiJhYmMifQ.b" = some (Json.obj [("exp", Json.str "abc")]) ∧
    isTokenExpired "a.eyJleHAiOiJhYmMifQ.b" 0 = false := ⟨rfl, rfl⟩

/-- C8 (amended): `isTokenExpired` returns true when decoding yields no
claims, when the `exp` claim is absent, and when `exp` is falsy (e.g. the
number 0); for a nonzero numeric `exp` it returns true exactly when
`exp * 1000 < now`; but for a truthy non-numeric `exp` coercing to NaN it
returns FALSE (the `NaN < now` comparison), not the fail-closed true. -/
theorem isTokenExpired_amended :
    (∀ (t : String) (now : ℤ), decodeJWT t = none → isTokenExpired t now = true) ∧
    (∀ (t : String) (now : ℤ) (p : Json), decodeJWT t = some p →
      jsGetField p "exp" = none → isTokenExpired t now = true) ∧
    (∀ (t : String) (now : ℤ) (p v : Json), decodeJWT t = some p →
      jsGetField p "exp" = some v → jsTruthy v = false → isTokenExpired t now = true) ∧
    (∀ (t : String) (now : ℤ) (p : Json) (q : DecNum), decodeJWT t = some p →
      jsGetField p "exp" = some (Json.num q) → q.mant ≠ 0 →
      isTokenExpired t now = DecNum.blt (q.mul (DecNum.ofInt 1000)) (DecNum.ofInt now)) ∧
    (∀ (t : String) (now : ℤ) (p v : Json), decodeJWT t = some p →
      jsGetField p "exp" = some v → jsTruthy v = true → toNumber v = JSNum.nan →
      isTokenExpired t now = false) := by
  refine ⟨?_, ?_, ?_, ?_, ?_⟩
  · intro t now h
    unfold isTokenExpired
    rw [h]
  · intro t now p hdec hexp
    unfold isTokenExpired
    rw [hdec]
    by_cases hp : jsTruthy p
    · simp [hp, hexp]
    · simp [hp]
  · intro t now p v hdec hexp hv
    have hp : jsTruthy p = true := jsGetField_some_truthy _ _ _ hexp
    unfold isTokenExpired
    rw [hdec]
    simp [hp, hexp, hv]
  · intro t now p q hdec hexp hq
    have hp : jsTruthy p = true := jsGetField_some_truthy _ _ _ hexp
    unfold isTokenExpired
    rw [hdec]
    simp only [hp, hexp]
    simp [jsTruthy, hq, toNumber, JSNum.mul, JSNum.lt]
  · intro t now p v hdec hexp hv hnan
    have hp : jsTruthy p = true := jsGetField_some_truthy _ _ _ hexp
    unfold isTokenExpired
    rw [hdec]
    simp [hp, hexp, hv, hnan, JSNum.mul, JSNum.lt]

/-- Witness for C8 (amended): each clause at a concrete token — no claims;
`{}` claims without `exp`; `exp` 0; numeric `exp` 1 against time 5000; and
the NaN-coercing `exp` `"abc"`. -/
theorem isTokenExpired_amended_witness :
    isTokenExpired "x" 5 = true ∧
    isTokenExpired "x.e30.y" 5 = true ∧
    isTokenExpired "a.eyJleHAiOjB9.b" 5 = true ∧
    isTokenExpired "e30.eyJleHAiOjF9.sig" 5000 =
      DecNum.blt (DecNum.mul ⟨1, 0⟩ (DecNum.ofInt 1000)) (DecNum.ofInt 5000) ∧
    isTokenExpired "a.eyJleHAiOiJhYmMifQ.b" 7 = false :=
  ⟨isTokenExpired_amended.1 "x" 5 rfl,
   isTokenExpired_amended.2.1 "x.e30.y" 5 (Json.obj []) rfl rfl,
   isTokenExpired_amended.2.2.1 "a.eyJleHAiOjB9.b" 5
     (Json.obj [("exp", Json.num ⟨0, 0⟩)]) (Json.num ⟨0, 0⟩) rfl rfl rfl,
   isTokenExpired_amended.2.2.2.1 "e30.eyJleHAiOjF9.sig" 5000
     (Json.obj [("exp", Json.num ⟨1, 0⟩)]) ⟨1, 0⟩ rfl rfl (by decide),
   isTokenExpired_amended.2.2.2.2 "a.eyJleHAiOiJhYmMifQ.b" 7
     (Json.obj [("exp", Json.str "abc")]) (Json.str "abc") rfl rfl rfl rfl⟩

/-- C3: given a stored nonempty valid refresh token and a settled refresh
response, `attemptTokenRefresh` reports success exactly when the
envelope's `statusCode` field strictly equals 200 and its `data` payload
is truthy; on success both (stringified) token fields of the payload are
written to storage and the payload's access token is returned; any other
envelope reports failure. -/
theorem attemptTokenRefresh_envelope (st : TokenStore) (oracle : ℕ → AxOutcome)
    (now : ℤ) (rt : String) (resp : AxResp)
    (hrt : st.refresh = some rt) (hne : rt ≠ "")
    (hvalid : isTokenValid rt now = true)
    (hnet : oracle 0 = AxOutcome.ok resp) :
    ((attemptTokenRefresh now ⟨st, oracle, [], []⟩).1.success = true ↔
      (jsEqNum (jsGetField resp.data "statusCode") 200 = true ∧
       jsOptTruthy (jsGetField resp.data "data") = true)) ∧
    ((attemptTokenRefresh now ⟨st, oracle, [], []⟩).1.success = true →
      (attemptTokenRefresh now ⟨st, oracle, [], []⟩).2.store.access =
        some (jsToStringU (jsGetField ((jsGetField resp.data "data").getD Json.null) "token")) ∧
      (attemptTokenRefresh now ⟨st, oracle, [], []⟩).2.store.refresh =
        some (jsToStringU (jsGetField ((jsGetField resp.data "data").getD Json.null) "refreshToken")) ∧
      (attemptTokenRefresh now ⟨st, oracle, [], []⟩).1.newToken =
        jsGetField ((jsGetField resp.data "data").getD Json.null) "token") := by
  simp only [attemptTokenRefresh, axiosCall, hrt, hne, hvalid, List.length_nil, hnet]
  by_cases hc : jsEqNum (jsGetField resp.data "statusCode") 200 = true ∧
      jsOptTruthy (jsGetField resp.data "data") = true
  · simp [hc, setAccessToken, setRefreshToken]
  · simp [hc]

/-- Witness for C3: a concrete refresh against a well-formed success
envelope. -/
theorem attemptTokenRefresh_envelope_witness :
    ((attemptTokenRefresh 0
        ⟨⟨some "A", some validToken⟩, (fun _ => AxOutcome.ok ⟨200, refreshOkBody⟩), [], []⟩).1.success = true ↔
      (jsEqNum (jsGetField refreshOkBody "statusCode") 200 = true ∧
       jsOptTruthy (jsGetField refreshOkBody "data") = true)) ∧
    ((attemptTokenRefresh 0
        ⟨⟨some "A", some validToken⟩, (fun _ => AxOutcome.ok ⟨200, refreshOkBody⟩), [], []⟩).1.success = true →
      (attemptTokenRefresh 0
        ⟨⟨some "A", some validToken⟩, (fun _ => AxOutcome.ok ⟨200, refreshOkBody⟩), [], []⟩).2.store.access =
        some (jsToStringU (jsGetField ((jsGetField refreshOkBody "data").getD Json.null) "token")) ∧
      (attemptTokenRefresh 0
        ⟨⟨some "A", some validToken⟩, (fun _ => AxOutcome.ok ⟨200, refreshOkBody⟩), [], []⟩).2.store.refresh =
        some (jsToStringU (jsGetField ((jsGetField refreshOkBody "data").getD Json.null) "refreshToken")) ∧
      (attemptTokenRefresh 0
        ⟨⟨some "A", some validToken⟩, (fun _ => AxOutcome.ok ⟨200, refreshOkBody⟩), [], []⟩).1.newToken =
        jsGetField ((jsGetField refreshOkBody "data").getD Json.null) "token") :=
  attemptTokenRefresh_envelope ⟨some "A", some validToken⟩
    (fun _ => AxOutcome.ok ⟨200, refreshOkBody⟩) 0 validToken ⟨200, refreshOkBody⟩
    rfl (by decide) rfl rfl

/-- C5: `attemptTokenRefresh` never changes the stored token pair on a
failure (no partial write), and when the stored refresh token is absent,
empty, or not `isValid`, it fails without issuing any network call. -/
theorem attemptTokenRefresh_failure_frame (now : ℤ) (w : World) :
    ((attemptTokenRefresh now w).1.success = false →
      (attemptTokenRefresh now w).2.store = w.store) ∧
    (w.store.refresh = none →
      (attemptTokenRefresh now w).1.success = false ∧
      (attemptTokenRefresh now w).2.calls = w.calls) ∧
    (∀ rt, w.store.refresh = some rt → (rt = "" ∨ isTokenValid rt now = false) →
      (attemptTokenRefresh now w).1.success = false ∧
      (attemptTokenRefresh now w).2.calls = w.calls) := by
  unfold attemptTokenRefresh
  cases hr : w.store.refresh with
  | none => simp
  | some rt =>
    by_cases h1 : rt = ""
    · simp [h1]
    · simp only [h1, if_false]
      by_cases h2 : isTokenValid rt now
      · simp only [h2, not_true, if_false, axiosCall]
        cases ho : w.oracle w.calls.length with
        | fail r m => simp [h1, h2]
        | ok resp =>
          by_cases hc : jsEqNum (jsGetField resp.data "statusCode") 200 = true ∧
              jsOptTruthy (jsGetField resp.data "data") = true
          · simp [hc, h1, h2]
          · simp [hc, h1, h2]
      · simp [h2, h1]

/-- Witness for C5: with no stored refresh token the refresh fails with no
network call and untouched storage. -/
theorem attemptTokenRefresh_failure_frame_witness :
    (attemptTokenRefresh 0
      ⟨⟨some "A", none⟩, (fun _ => AxOutcome.fail none "x"), [], []⟩).1.success = false ∧
    (attemptTokenRefresh 0
      ⟨⟨some "A", none⟩, (fun _ => AxOutcome.fail none "x"), [], []⟩).2.calls = [] :=
  (attemptTokenRefresh_failure_frame 0
    ⟨⟨some "A", none⟩, (fun _ => AxOutcome.fail none "x"), [], []⟩).2.1 rfl

/-- C10: a 401 body with no `message` field (or an empty-string message)
takes the UNKNOWN branch of `handle401Error`: no refresh attempt (no
network call — the world's oracle and call log are untouched), both stored
tokens cleared, `logout` and `authFailed` with the generic
authentication-error message dispatched, and `shouldRetry = false`. -/
theorem handle401Error_unknown (errorData : Option Json) (now : ℤ) (w : World)
    (hmsg : errorData = none ∨ ∃ d, errorData = some d ∧
      (jsGetField d "message" = none ∨ jsGetField d "message" = some (Json.str ""))) :
    handle401Error errorData true now w =
      .ok (⟨false, none⟩,
        ⟨⟨none, none⟩, w.oracle, w.calls,
         w.actions ++ [ReduxAction.logout,
           ReduxAction.authFailed "Authentication error. Please login again."]⟩) := by
  have h1 : isTokenExpiredError "" = false := rfl
  have h2 : isTokenInvalidError "" = false := rfl
  rcases hmsg with h | ⟨d, hd, hf | hf⟩
  · subst h
    simp [handle401Error, h1, h2, clearAuthAndLogout, removeAccessToken, removeRefreshToken]
  · subst hd
    simp [handle401Error, hf, h1, h2, clearAuthAndLogout, removeAccessToken, removeRefreshToken]
  · subst hd
    simp [handle401Error, hf, h1, h2, jsTruthy, clearAuthAndLogout, removeAccessToken,
      removeRefreshToken]

/-- Witness for C10: a 401 body that is an object without `message`. -/
theorem handle401Error_unknown_witness :
    handle401Error (some (Json.obj [])) true 0
      ⟨⟨some "A", some "R"⟩, (fun _ => AxOutcome.fail none "x"), [], []⟩ =
      .ok (⟨false, none⟩,
        ⟨⟨none, none⟩, (fun _ => AxOutcome.fail none "x"), [],
         [ReduxAction.logout,
          ReduxAction.authFailed "Authentication error. Please login again."]⟩) :=
  handle401Error_unknown (some (Json.obj [])) 0
    ⟨⟨some "A", some "R"⟩, (fun _ => AxOutcome.fail none "x"), [], []⟩
    (Or.inr ⟨Json.obj [], rfl, Or.inl rfl⟩)

/-- C7: a rejection of a request whose url is the refresh endpoint
`auth/refresh-token` bypasses the 401 triage entirely — even with status
401 — so no refresh is attempted: the error is surfaced unchanged, exactly
one request is issued, and neither storage nor dispatched actions
change. -/
theorem axiosBaseQuery_refresh_loop_guard (method : String) (data : Option JsData)
    (params : Option Json) (headers : Headers) (hasDispatch : Bool) (now : ℤ)
    (w : World) (resp? : Option AxResp) (m : String)
    (hnet : w.oracle w.calls.length = AxOutcome.fail resp? m) :
    axiosBaseQuery "auth/refresh-token" method data params headers hasDispatch now w =
      (.ok (.error (resp?.map AxResp.status) (errDataOf resp? m)),
       ⟨w.store, w.oracle, w.calls ++ [⟨"auth/refresh-token", method, data, params,
           buildRequestHeaders method data (w.store.access.map Json.str) headers⟩],
        w.actions⟩) := by
  simp only [axiosBaseQuery, axiosCall, hnet]
  simp

/-- Witness for C7: a 401 on the refresh endpoint itself is surfaced
as-is after a single request. -/
theorem axiosBaseQuery_refresh_loop_guard_witness :
    axiosBaseQuery "auth/refresh-token" "POST" none none [] true 0
      ⟨⟨some "A", some "R"⟩, (fun _ => AxOutcome.fail (some ⟨401, Json.str "nope"⟩) "m"), [], []⟩ =
      (.ok (.error (some 401) (ErrData.body (Json.str "nope"))),
       ⟨⟨some "A", some "R"⟩, (fun _ => AxOutcome.fail (some ⟨401, Json.str "nope"⟩) "m"),
        [⟨"auth/refresh-token", "POST", none, none,
          buildRequestHeaders "POST" none (some (Json.str "A")) []⟩],
        []⟩) :=
  axiosBaseQuery_refresh_loop_guard "POST" none none [] true 0
    ⟨⟨some "A", some "R"⟩, (fun _ => AxOutcome.fail (some ⟨401, Json.str "nope"⟩) "m"), [], []⟩
    (some ⟨401, Json.str "nope"⟩) "m" rfl

/-- C9: when exactly one of the two tokens is (truthily) present at
startup, `restoreUserSession` dispatches only `logout` and returns at
once: storage — including the remaining token — is untouched and no
request is issued. -/
theorem restoreUserSession_single_token (env : RestoreEnv) (now : ℤ) (w : World)
    (hnx : env.unexpected = false)
    (hone : optStrTruthy w.store.access ≠ optStrTruthy w.store.refresh) :
    restoreUserSession env now w =
      ⟨w.store, w.oracle, w.calls, w.actions ++ [ReduxAction.logout]⟩ := by
  unfold restoreUserSession
  rw [hnx]
  cases ha : optStrTruthy w.store.access <;> cases hb : optStrTruthy w.store.refresh <;>
    simp_all

/-- Witness for C9: only an access token stored. -/
theorem restoreUserSession_single_token_witness :
    restoreUserSession ⟨false, false, Except.ok none⟩ 0
      ⟨⟨some "A", none⟩, (fun _ => AxOutcome.fail none "x"), [], []⟩ =
      ⟨⟨some "A", none⟩, (fun _ => AxOutcome.fail none "x"), [], [ReduxAction.logout]⟩ :=
  restoreUserSession_single_token ⟨false, false, Except.ok none⟩ 0
    ⟨⟨some "A", none⟩, (fun _ => AxOutcome.fail none "x"), [], []⟩ rfl (by decide)

/-- Refreshing never dispatches Redux actions. -/
theorem attemptTokenRefresh_actions (now : ℤ) (w : World) :
    (attemptTokenRefresh now w).2.actions = w.actions := by
  unfold attemptTokenRefresh
  cases w.store.refresh with
  | none => rfl
  | some rt =>
    by_cases h1 : rt = ""
    · simp [h1]
    · simp only [h1, if_false]
      by_cases h2 : isTokenValid rt now
      · simp only [h2, not_true, if_false, axiosCall]
        cases w.oracle w.calls.length with
        | fail r m => rfl
        | ok resp =>
          by_cases hc : jsEqNum (jsGetField resp.data "statusCode") 200 = true ∧
              jsOptTruthy (jsGetField resp.data "data") = true
          · simp [hc]
          · simp [hc]
      · simp [h2]

/-- The refresh-then-fetch tail of `restoreUserSession` ends by
dispatching exactly one terminal action, `logout` or `setUser`. -/
theorem restoreTail_actions (env : RestoreEnv) (now : ℤ) (a r : String) (w : World) :
    (restoreTail env now a r w).actions = w.actions ++ [ReduxAction.logout] ∨
    ∃ u, (restoreTail env now a r w).actions = w.actions ++ [ReduxAction.setUser u] := by
  unfold restoreTail restoreCleanup
  dsimp only
  split
  · split
    · left; rfl
    · by_cases hs : (attemptTokenRefresh now w).1.success = true
      · by_cases hp : (fetchUserProfile env.profile).success = true ∧
            jsOptTruthy (fetchUserProfile env.profile).user = true
        · right
          exact ⟨(fetchUserProfile env.profile).user.getD Json.null,
            by simp [hs, hp, attemptTokenRefresh_actions]⟩
        · left; simp [hs, hp, attemptTokenRefresh_actions]
      · left; simp [hs, attemptTokenRefresh_actions]
  · left; rfl

/-- C6: every `restoreUserSession` run — for every token state, transport
oracle and step-exception injection, including a rejecting refresh await
and an unexpected exception reaching the top-level catch — terminates
having dispatched exactly one terminal auth action, `setUser` or `logout`;
and when the top-level catch fires it clears both stored tokens and
dispatches `logout`, so restoration never ends loading or
partially-authenticated. -/
theorem restoreUserSession_terminal (env : RestoreEnv) (now : ℤ) (w : World) :
    ((restoreUserSession env now w).actions = w.actions ++ [ReduxAction.logout] ∨
     ∃ u, (restoreUserSession env now w).actions = w.actions ++ [ReduxAction.setUser u]) ∧
    (env.unexpected = true →
      (restoreUserSession env now w).store = ⟨none, none⟩ ∧
      (restoreUserSession env now w).actions = w.actions ++ [ReduxAction.logout]) := by
  constructor
  · unfold restoreUserSession
    dsimp only
    split
    · left; simp [restoreCleanup]
    · split
      · left; rfl
      · split
        · split
          · right; exact ⟨_, rfl⟩
          · exact restoreTail_actions env now _ _ w
        · exact restoreTail_actions env now _ _ w
  · intro hu
    unfold restoreUserSession
    rw [hu]
    simp [restoreCleanup, removeAccessToken, removeRefreshToken]

/-- Witness for C6: the top-level catch path clears storage and logs
out. -/
theorem restoreUserSession_terminal_witness :
    (restoreUserSession ⟨true, false, Except.ok none⟩ 0
      ⟨⟨some "A", some "R"⟩, (fun _ => AxOutcome.fail none "x"), [], []⟩).store = ⟨none, none⟩ ∧
    (restoreUserSession ⟨true, false, Except.ok none⟩ 0
      ⟨⟨some "A", some "R"⟩, (fun _ => AxOutcome.fail none "x"), [], []⟩).actions =
      [ReduxAction.logout] :=
  (restoreUserSession_terminal ⟨true, false, Except.ok none⟩ 0
    ⟨⟨some "A", some "R"⟩, (fun _ => AxOutcome.fail none "x"), [], []⟩).2 rfl

/-- C1 counterexample: first attempt 401-EXPIRED, refresh succeeds, retry
fails with a 500 carrying body `"boom"` — on the retry failure the base
query returns the ORIGINAL 401 error, not the retry's failure, refuting
"returns the retry's outcome ... its failure on failure". -/
theorem axiosBaseQuery_c1_counterexample :
    (axiosBaseQuery "u" "get" none none [] true 0
      ⟨⟨some "A", some validToken⟩, retryOracle, [], []⟩).1 =
      .ok (.error (some 401) (.body expiredMsgBody)) ∧
    (axiosBaseQuery "u" "get" none none [] true 0
      ⟨⟨some "A", some validToken⟩, retryOracle, [], []⟩).1 ≠
      .ok (.error (some 500) (.body (Json.str "boom"))) := by
  refine ⟨rfl, ?_⟩
  intro h
  rw [show (axiosBaseQuery "u" "get" none none [] true 0
      ⟨⟨some "A", some validToken⟩, retryOracle, [], []⟩).1 =
      .ok (.error (some 401) (.body expiredMsgBody)) from rfl] at h
  injection h with h1
  injection h1 with h2 h3
  exact absurd (Option.some.inj h2) (by decide)

/-- Reduction of `handle401Error` on the EXPIRED path when the refresh
call settles with a well-formed success envelope: retry requested with the
new token, both stringified tokens stored, the refresh request issued. -/
theorem handle401Error_expired_ok (body : Json) (hasDispatch : Bool) (now : ℤ)
    (w : World) (s rt : String) (resp1 : AxResp) (dta tok : Json)
    (hmsg : jsGetField body "message" = some (Json.str s))
    (hexp : isTokenExpiredError s = true)
    (hrt : w.store.refresh = some rt) (hrne : rt ≠ "")
    (hrv : isTokenValid rt now = true)
    (hnet : w.oracle w.calls.length = AxOutcome.ok resp1)
    (henv : jsEqNum (jsGetField resp1.data "statusCode") 200 = true)
    (hdta : jsGetField resp1.data "data" = some dta)
    (hdtruthy : jsTruthy dta = true)
    (htok : jsGetField dta "token" = some tok) :
    handle401Error (some body) hasDispatch now w =
      .ok (⟨true, some tok⟩,
        ⟨⟨some (jsToString tok), some (jsToStringU (jsGetField dta "refreshToken"))⟩,
         w.oracle,
         w.calls ++ [⟨"auth/refresh-token", "POST",
           some (.jval (.obj [("refreshToken", .str rt)])), none,
           [("Content-Type", "application/json")]⟩],
         w.actions⟩) := by
  have hsne : s ≠ "" := fun he => absurd (he ▸ hexp) (by decide)
  have hms : jsTruthy (Json.str s) = true := by simp [jsTruthy, hsne]
  unfold handle401Error attemptTokenRefresh
  simp only [hmsg, hrt, hrne, axiosCall, hnet, hdta]
  simp [hms, hexp, hrv, jsOptTruthy, hdtruthy, henv, htok,
    setAccessToken, setRefreshToken, jsToStringU]

/-- C1 (amended): when the first attempt 401s with an EXPIRED-classified
message off the refresh endpoint and the refresh succeeds with a truthy
token, the original request is retried exactly once, carrying
`Bearer <new token>` in its Authorization header (exactly three requests
are issued, so a 401 on the retry is never retried again); the retry's
body is the final result on success, but on retry failure the final
result is the ORIGINAL 401 error, not the retry's failure. -/
theorem axiosBaseQuery_retry_amended
    (url method : String) (data : Option JsData) (params : Option Json)
    (headers : Headers) (hasDispatch : Bool) (now : ℤ)
    (st : TokenStore) (oracle : ℕ → AxOutcome)
    (resp0 : AxResp) (m0 : String) (s : String) (rt : String)
    (resp1 : AxResp) (dta tok : Json)
    (hurl : url ≠ "auth/refresh-token")
    (h0 : oracle 0 = AxOutcome.fail (some resp0) m0)
    (hstatus : resp0.status = 401)
    (hmsg : jsGetField resp0.data "message" = some (Json.str s))
    (hexp : isTokenExpiredError s = true)
    (hrt : st.refresh = some rt) (hrne : rt ≠ "")
    (hrv : isTokenValid rt now = true)
    (h1 : oracle 1 = AxOutcome.ok resp1)
    (henv : jsEqNum (jsGetField resp1.data "statusCode") 200 = true)
    (hdta : jsGetField resp1.data "data" = some dta)
    (hdtruthy : jsTruthy dta = true)
    (htok : jsGetField dta "token" = some tok)
    (htoktruthy : jsTruthy tok = true) :
    (axiosBaseQuery url method data params headers hasDispatch now
      ⟨st, oracle, [], []⟩).2.calls.length = 3 ∧
    (axiosBaseQuery url method data params headers hasDispatch now
      ⟨st, oracle, [], []⟩).2.calls.get? 2 =
      some ⟨url, method, data, params, buildRequestHeaders method data (some tok) headers⟩ ∧
    hget (buildRequestHeaders method data (some tok) headers) "Authorization" =
      some ("Bearer " ++ jsToString tok) ∧
    (axiosBaseQuery url method data params headers hasDispatch now
      ⟨st, oracle, [], []⟩).1 =
      .ok (match oracle 2 with
        | .ok r2 => QueryResult.data r2.data
        | .fail _ _ => QueryResult.error (some 401) (errDataOf (some resp0) m0)) := by
  have hauth : hget (buildRequestHeaders method data (some tok) headers) "Authorization" =
      some ("Bearer " ++ jsToString tok) := by
    have hb : buildRequestHeaders method data (some tok) headers =
        (getContentTypeHeaders method data ++ headers) ++
          [("Authorization", "Bearer " ++ jsToString tok)] := by
      simp [buildRequestHeaders, getAuthHeaders, htoktruthy]
    rw [hb, hget_append_single]
  unfold axiosBaseQuery
  simp only [axiosCall, List.length_nil, h0, Option.map_some']
  rw [handle401Error_expired_ok resp0.data hasDispatch now _ s rt resp1 dta tok
    hmsg hexp hrt hrne hrv (by simpa using h1) henv hdta hdtruthy htok]
  simp only [hstatus, hurl, jsOptTruthy, htoktruthy]
  simp only [List.nil_append, List.cons_append, List.length_cons, List.length_nil]
  cases h2 : oracle 2 with
  | ok r2 => refine ⟨?_, ?_, hauth, ?_⟩ <;> simp [h2, hurl, List.get?]
  | fail rr mm => refine ⟨?_, ?_, hauth, ?_⟩ <;> simp [h2, hurl, List.get?]

/-- Witness for C1 (amended): the concrete retry scenario in which the
retry fails with a 500; the original 401 error body is returned. -/
theorem axiosBaseQuery_retry_amended_witness :
    (axiosBaseQuery "u" "get" none none [] true 0
      ⟨⟨some "A", some validToken⟩, retryOracle, [], []⟩).2.calls.length = 3 ∧
    (axiosBaseQuery "u" "get" none none [] true 0
      ⟨⟨some "A", some validToken⟩, retryOracle, [], []⟩).2.calls.get? 2 =
      some ⟨"u", "get", none, none, buildRequestHeaders "get" none (some (Json.str "NEW")) []⟩ ∧
    hget (buildRequestHeaders "get" none (some (Json.str "NEW")) []) "Authorization" =
      some ("Bearer " ++ jsToString (Json.str "NEW")) ∧
    (axiosBaseQuery "u" "get" none none [] true 0
      ⟨⟨some "A", some validToken⟩, retryOracle, [], []⟩).1 =
      .ok (.error (some 401) (.body expiredMsgBody)) :=
  axiosBaseQuery_retry_amended "u" "get" none none [] true 0
    ⟨some "A", some validToken⟩ retryOracle
    ⟨401, expiredMsgBody⟩ "Request failed with status code 401" "jwt expired" validToken
    ⟨200, refreshOkBody⟩
    (Json.obj [("token", Json.str "NEW"), ("refreshToken", Json.str "NEW2")])
    (Json.str "NEW")
    (by decide) rfl rfl rfl rfl rfl (by decide) rfl rfl rfl rfl rfl rfl rfl
